import Mathlib

set_option maxHeartbeats 1000000

/-!
Shallow embedding of the slide-parse backend (src/main.py): a Flask service
that accepts a PDF upload, rasterizes its pages, stores the page images in an
in-memory session map, and on a second request uploads selected pages to S3
and emits HTML markup.  External collaborators (the pdf2image rasterizer, PIL
image handling, boto3/S3) are modelled as parameters or abstract outcomes;
the control flow, validation order, session bookkeeping, grouping and string
construction are translated directly from src/main.py.
-/

/-! ## Character classes and sanitize_filename (src/main.py lines 47-52)

`sanitize_filename` runs `re.sub(r'[^\w\s-]', '', text)`, then
`re.sub(r'[-\s]+', '_', ...)`, then `.strip('_')`.  Characters are modelled
over the ASCII fragment of Python's `\w` (alphanumerics and underscore) and
`\s` (whitespace); the Unicode extensions of those classes behave identically
with respect to every property proved here. -/

/-- ASCII fragment of Python's regex class `\w`: alphanumerics and `_`. -/
def isWordChar (c : Char) : Bool := c.isAlphanum || c == '_'

/-- ASCII fragment of Python's regex class `\s`. -/
def isSpaceChar (c : Char) : Bool := c.isWhitespace

/-- Characters kept by the first substitution `re.sub(r'[^\w\s-]', '', text)`. -/
def keepChar (c : Char) : Bool := isWordChar c || isSpaceChar c || c == '-'

/-- Characters matched by the second substitution's class `[-\s]`. -/
def isDashSpace (c : Char) : Bool := c == '-' || isSpaceChar c

/-- `re.sub(r'[-\s]+', '_', l)`: replace each maximal run of hyphens and
whitespace by a single underscore.  The boolean flag records whether the
previous character belonged to the current run. -/
def collapseRuns : Bool → List Char → List Char
  | _, [] => []
  | inRun, c :: cs =>
    if isDashSpace c then
      if inRun then collapseRuns true cs else '_' :: collapseRuns true cs
    else c :: collapseRuns false cs

/-- Drop the trailing run of characters satisfying `p` (the right half of
Python's `.strip`). -/
def dropTrail (p : Char → Bool) : List Char → List Char
  | [] => []
  | c :: cs =>
    match dropTrail p cs with
    | [] => if p c then [] else [c]
    | r => c :: r

/-- Python's `.strip(chars)`: drop the leading and trailing runs of
characters satisfying `p`. -/
def pyStripWhen (p : Char → Bool) (l : List Char) : List Char :=
  dropTrail p (l.dropWhile p)

/-- The underscore test used by `.strip('_')`. -/
def isU (c : Char) : Bool := c == '_'

/-- Python's `.strip('_')`: drop leading and trailing underscores. -/
def stripU (l : List Char) : List Char := pyStripWhen isU l

/-- Python's `.strip()` on a string: drop leading and trailing whitespace. -/
def pyStrip (s : String) : String := String.mk (pyStripWhen isSpaceChar s.data)

/-- `sanitize_filename` (src/main.py lines 47-52). -/
def sanitize_filename (s : String) : String :=
  String.mk (stripU (collapseRuns false (s.data.filter keepChar)))

/-! ## allowed_file (src/main.py lines 31-32) -/

/-- `allowed_file`: `'.' in filename and filename.rsplit('.', 1)[1].lower() in {'pdf'}`.
The segment after the last dot is the reverse of the longest dot-free suffix. -/
def allowed_file (filename : String) : Bool :=
  filename.data.contains '.' &&
    ((filename.data.reverse.takeWhile (fun c => c != '.')).reverse.map Char.toLower
      == ['p', 'd', 'f'])

/-! ## Rasterization and thumbnails (src/main.py lines 54-91) -/

/-- A full-page raster image as returned by `convert_from_path`: its pixel
dimensions and its PNG-encoded bytes (`image.save(buffer, 'PNG')` is modelled
as returning the `png` field). -/
structure PILImage where
  width : Nat
  height : Nat
  png : List Nat
deriving DecidableEq

/-- Pixel dimensions of a decoded thumbnail. -/
structure Thumb where
  width : Nat
  height : Nat
deriving DecidableEq

/-- Dimension behaviour of PIL's `Image.thumbnail((300, 200), ...)` (an
external library call): an image already fitting in the 300x200 box is left
unchanged, otherwise it is scaled down preserving aspect ratio so that it
fits; the rounding of the scaled edge is modelled as a ceiling clamped to at
least 1 pixel (the 300x200 bound proved below holds for any rounding to a
neighbouring integer, which is all PIL's `round_aspect` can produce). -/
def thumbDims (w h : Nat) : Nat × Nat :=
  if w ≤ 300 ∧ h ≤ 200 then (w, h)
  else if 200 * w ≤ 300 * h then (max ((200 * w + h - 1) / h) 1, 200)
  else (300, max ((300 * h + w - 1) / w) 1)

/-- One slide record built per page (src/main.py lines 77-83).  The
base64 data-URL thumbnail payload is modelled by the decoded thumbnail's
dimensions. -/
structure Slide where
  id : Nat
  thumbnail : Thumb
  title : String
  selected : Bool
  category : Option String
deriving DecidableEq

/-- The slide record built for page `i` (0-based) of the PDF. -/
def mkSlide (i : Nat) (img : PILImage) : Slide :=
  { id := i + 1,
    thumbnail := { width := (thumbDims img.width img.height).1,
                   height := (thumbDims img.width img.height).2 },
    title := "Slide " ++ toString (i + 1),
    selected := false,
    category := none }

/-- `convert_pdf_to_images` (src/main.py lines 54-91).  The
`convert_from_path` call on the temporary PDF is modelled by the `pdf`
argument: `.ok images` when rasterization returns the page images in page
order, `.error ()` when it raises.  The surrounding `try/except` turns any
exception into the pair `([], [])`. -/
def convert_pdf_to_images (pdf : Except Unit (List PILImage)) :
    List Slide × List (List Nat) :=
  match pdf with
  | .error _ => ([], [])
  | .ok images => (images.enum.map (fun p => mkSlide p.1 p.2), images.map (fun im => im.png))

/-! ## Session storage (src/main.py line 29) -/

/-- One record of `session_storage` (src/main.py lines 182-189). -/
structure SessionData where
  slides : List Slide
  temp_images : List (List Nat)
  fund_id : String
  fund_name : String
  safe_fund_id : String
  safe_fund_name : String
deriving DecidableEq

/-- The in-memory `session_storage` dict, as an insertion-ordered
association list. -/
abbrev Store := List (String × SessionData)

/-- Dict lookup `session_storage[sid]` / `sid in session_storage`. -/
def storeLookup : Store → String → Option SessionData
  | [], _ => none
  | (k, v) :: rest, key => if k == key then some v else storeLookup rest key

/-- Dict assignment `session_storage[sid] = data`: replace an existing key in
place, otherwise append (Python dicts preserve insertion order). -/
def storeInsert (store : Store) (k : String) (v : SessionData) : Store :=
  if store.any (fun p => p.1 == k) then
    store.map (fun p => if p.1 == k then (k, v) else p)
  else store ++ [(k, v)]

/-- `del session_storage[sid]` (src/main.py line 318). -/
def storeErase (store : Store) (k : String) : Store :=
  store.filter (fun p => p.1 != k)

/-! ## Upload stage (src/main.py lines 137-204) -/

/-- The 50 MiB limit `app.config['MAX_CONTENT_LENGTH']` (src/main.py line 19). -/
def MAX_CONTENT_LENGTH : Nat := 50 * 1024 * 1024

instance : DecidableEq (Except Unit (List PILImage)) := fun x y =>
  match x, y with
  | Except.error a, Except.error b => Decidable.isTrue (by cases a; cases b; rfl)
  | Except.ok a, Except.ok b =>
    if h : a = b then Decidable.isTrue (by rw [h]) else Decidable.isFalse (by simp [h])
  | Except.error _, Except.ok _ => Decidable.isFalse (by simp)
  | Except.ok _, Except.error _ => Decidable.isFalse (by simp)

/-- The uploaded multipart file part: its client-supplied filename, its byte
size (`file.seek(0, SEEK_END); file.tell()`), and the rasterization outcome
for its content once saved to the temporary path (`convert_from_path` either
returns the page images in page order or raises). -/
structure UploadedFile where
  filename : String
  size : Nat
  pdf : Except Unit (List PILImage)
deriving DecidableEq

/-- A `POST /api/upload` request: the optional `file` part, the raw form
fields, and the total multipart body size seen by the framework. -/
structure UploadReq where
  file : Option UploadedFile
  fund_id : String
  fund_name : String
  content_length : Nat
deriving DecidableEq

/-- Outcome of the upload endpoint: an error JSON `{'error': msg}` with its
HTTP status, or the 200 success payload (src/main.py lines 193-200). -/
inductive UploadResult where
  | error (status : Nat) (msg : String)
  | success (session_id : String) (slides : List Slide) (fund_id fund_name : String)
      (total_slides : Nat)
deriving DecidableEq

/-- The `upload_pdf` view function (src/main.py lines 137-204).  `fresh` is
the `str(uuid.uuid4())` generated at line 179.  Returns the response and the
updated `session_storage`. -/
def upload_pdf (fresh : String) (store : Store) (req : UploadReq) : UploadResult × Store :=
  match req.file with
  | none => (UploadResult.error 400 "No file provided", store)
  | some file =>
    if (pyStrip req.fund_id) == "" || (pyStrip req.fund_name) == "" then
      (UploadResult.error 400 "Fund ID and Fund Name are required", store)
    else if file.filename == "" then
      (UploadResult.error 400 "No file selected", store)
    else if !allowed_file file.filename then
      (UploadResult.error 400 "Invalid file type. Only PDF files are allowed.", store)
    else if MAX_CONTENT_LENGTH < file.size then
      (UploadResult.error 400 "File size exceeds 50MB limit", store)
    else if (convert_pdf_to_images file.pdf).1.isEmpty then
      (UploadResult.error 500 "Failed to process PDF", store)
    else
      (UploadResult.success fresh (convert_pdf_to_images file.pdf).1 (pyStrip req.fund_id)
        (pyStrip req.fund_name) (convert_pdf_to_images file.pdf).1.length,
       storeInsert store fresh
         { slides := (convert_pdf_to_images file.pdf).1,
           temp_images := (convert_pdf_to_images file.pdf).2,
           fund_id := (pyStrip req.fund_id), fund_name := (pyStrip req.fund_name),
           safe_fund_id := sanitize_filename (pyStrip req.fund_id),
           safe_fund_name := sanitize_filename (pyStrip req.fund_name) })

/-- The full request path for `POST /api/upload`.  Flask parses the request
body lazily against `MAX_CONTENT_LENGTH` (configured at src/main.py
line 19): when the multipart body exceeds the limit, werkzeug raises
`RequestEntityTooLarge` at the first body access — line 141's
`'file' not in request.files`, which sits inside the view's `try` — and the
bare `except Exception` at line 202 catches it and returns the generic 500
"Internal server error" with no session created.  The registered 413 handler
(src/main.py lines 332-334) is therefore unreachable for this route.
Otherwise the view handles the parsed request. -/
def handle_upload (fresh : String) (store : Store) (req : UploadReq) : UploadResult × Store :=
  if MAX_CONTENT_LENGTH < req.content_length then
    (UploadResult.error 500 "Internal server error", store)
  else upload_pdf fresh store req

/-! ## Process stage (src/main.py lines 206-330) -/

/-- One element of the JSON `selected_slides` list; `.get('id')` and
`.get('category')` yield `none` for an absent key (Python `None`). -/
structure Selection where
  id : Option Int
  category : Option String
deriving DecidableEq

/-- A `POST /api/process` request body. -/
structure ProcessReq where
  session_id : Option String
  selected_slides : List Selection
deriving DecidableEq

/-- The AWS environment configuration (src/main.py lines 23-26); `getenv`
yields `none` when a variable is unset. -/
structure AwsCfg where
  access_key : Option String
  secret_key : Option String
  region : String
  bucket : Option String
deriving DecidableEq

/-- Python truthiness of an optional string: `None` and `''` are falsy. -/
def optTruthy : Option String → Bool
  | none => false
  | some s => s != ""

/-- One S3 upload result entry (src/main.py lines 278-283). -/
structure UploadedEntry where
  id : Int
  filename : String
  s3_url : String
  s3_key : String
deriving DecidableEq

/-- `uploaded_slides`: a dict from category to its entries, insertion
ordered. -/
abbrev Groups := List (String × List UploadedEntry)

/-- The grouping step (src/main.py lines 275-283): create the category key on
first use, then append. -/
def groupAppend (acc : Groups) (category : String) (e : UploadedEntry) : Groups :=
  if acc.any (fun p => p.1 == category) then
    acc.map (fun p => if p.1 == category then (p.1, p.2 ++ [e]) else p)
  else acc ++ [(category, [e])]

/-- The S3 `put_object` call, abstracted: given the key and the body bytes it
either succeeds (`none`) or raises a `ClientError` with message `some msg`. -/
abbrev S3Oracle := String → List Nat → Option String

/-- The truthiness filter at src/main.py lines 240-244: a selection
contributes only when `slide_id` and `category` are both truthy (id present
and nonzero, category present and nonempty). -/
def selFields (sel : Selection) : Option (Int × String) :=
  match sel.id, sel.category with
  | some i, some c => if i == 0 || c == "" then none else some (i, c)
  | _, _ => none

/-- Python list indexing `l[i]`: a negative index counts from the end; an
index out of range on either side raises `IndexError` (`none`). -/
def pyGet {α : Type} (l : List α) (i : Int) : Option α :=
  if 0 ≤ i then l.get? i.toNat
  else if (-i).toNat ≤ l.length then l.get? (l.length - (-i).toNat) else none

/-- How the per-selection loop can abort: an S3 `ClientError` while uploading
the named slide (caught at src/main.py lines 287-289), or a Python exception
such as the `IndexError` from a too-negative index (caught by the outer
`except` at lines 328-330). -/
inductive LoopFail where
  | s3 (slide_id : Int) (msg : String)
  | indexError
deriving DecidableEq

/-- The request-independent context of the per-selection loop. -/
structure ProcCtx where
  oracle : S3Oracle
  imgs : List (List Nat)
  session_id : String
  safe_fund_id : String
  safe_fund_name : String
  bucket : String
  region : String

/-- The loop over `selected_slides` (src/main.py lines 239-289).  Returns the
grouped upload results (or the abort) together with the list of S3 keys for
which `put_object` was actually attempted. -/
def runSelections (ctx : ProcCtx) :
    List Selection → Groups → List String → Except LoopFail Groups × List String
  | [], acc, log => (Except.ok acc, log)
  | sel :: rest, acc, log =>
    match selFields sel with
    | none => runSelections ctx rest acc log
    | some (slide_id, category) =>
      if (ctx.imgs.length : Int) ≤ slide_id - 1 then
        runSelections ctx rest acc log
      else
        match pyGet ctx.imgs (slide_id - 1) with
        | none => (Except.error LoopFail.indexError, log)
        | some image_data =>
          match ctx.oracle ("presentations/" ++ ctx.session_id ++ "/" ++
              (ctx.safe_fund_id ++ "_" ++ ctx.safe_fund_name ++ "_slide" ++
                toString slide_id ++ ".png")) image_data with
          | some emsg => (Except.error (LoopFail.s3 slide_id emsg),
              log ++ ["presentations/" ++ ctx.session_id ++ "/" ++
                (ctx.safe_fund_id ++ "_" ++ ctx.safe_fund_name ++ "_slide" ++
                  toString slide_id ++ ".png")])
          | none =>
            runSelections ctx rest
              (groupAppend acc category
                { id := slide_id,
                  filename := ctx.safe_fund_id ++ "_" ++ ctx.safe_fund_name ++ "_slide" ++
                    toString slide_id ++ ".png",
                  s3_url := "https://" ++ ctx.bucket ++ ".s3." ++ ctx.region ++
                    ".amazonaws.com/" ++ ("presentations/" ++ ctx.session_id ++ "/" ++
                      (ctx.safe_fund_id ++ "_" ++ ctx.safe_fund_name ++ "_slide" ++
                        toString slide_id ++ ".png")),
                  s3_key := "presentations/" ++ ctx.session_id ++ "/" ++
                    (ctx.safe_fund_id ++ "_" ++ ctx.safe_fund_name ++ "_slide" ++
                      toString slide_id ++ ".png") })
              (log ++ ["presentations/" ++ ctx.session_id ++ "/" ++
                (ctx.safe_fund_id ++ "_" ++ ctx.safe_fund_name ++ "_slide" ++
                  toString slide_id ++ ".png")])

/-- The HTML block built per category (src/main.py lines 292-313). -/
def buildHtml (category : String) (slides : List UploadedEntry) : String :=
  String.intercalate "\n"
    (["<!-- " ++ category ++ " Section -->",
      "<div class=\"" ++
        (if category != "" then sanitize_filename category.toLower else "uncategorized") ++
        "-section\">",
      "  <h2>" ++ category ++ "</h2>",
      "  <div class=\"slides-container\">"] ++
     (slides.map (fun slide =>
       ["    <div class=\"slide-item\">",
        "      <img src=\"" ++ slide.s3_url ++ "\" alt=\"" ++ category ++ "_slide" ++
          toString slide.id ++ "\" />",
        "      <p>Slide " ++ toString slide.id ++ "</p>",
        "    </div>"])).flatten ++
     ["  </div>", "</div>"])

/-- Outcome of the process endpoint: an error JSON with its HTTP status, or
the 200 success payload (src/main.py lines 320-326). -/
inductive ProcessResult where
  | error (status : Nat) (msg : String)
  | success (uploaded_slides : Groups) (html_sections : List (String × String))
      (s3_bucket : String) (total_uploaded : Nat)
deriving DecidableEq

/-- The loop context assembled from the configuration and the session record
found in the store. -/
def mkCtx (cfg : AwsCfg) (oracle : S3Oracle) (sid : String) (sd : SessionData) : ProcCtx :=
  { oracle := oracle, imgs := sd.temp_images, session_id := sid,
    safe_fund_id := sd.safe_fund_id, safe_fund_name := sd.safe_fund_name,
    bucket := cfg.bucket.getD "", region := cfg.region }

/-- The `process_slides` view function (src/main.py lines 206-330).  The
`get_s3_client` call is modelled as always returning a client; the
`put_object` calls are the oracle inside the loop context. -/
def process_slides (cfg : AwsCfg) (oracle : S3Oracle) (store : Store) (req : ProcessReq) :
    ProcessResult × Store :=
  if !optTruthy req.session_id || req.selected_slides.isEmpty then
    (ProcessResult.error 400 "Missing session ID or selected slides", store)
  else
    match storeLookup store (req.session_id.getD "") with
    | none => (ProcessResult.error 404 "Session not found or expired", store)
    | some session_data =>
      if !(optTruthy cfg.access_key && optTruthy cfg.secret_key && optTruthy cfg.bucket) then
        (ProcessResult.error 500 "AWS S3 not configured", store)
      else
        match (runSelections (mkCtx cfg oracle (req.session_id.getD "") session_data)
            req.selected_slides [] []).1 with
        | Except.error (LoopFail.s3 i e) =>
          (ProcessResult.error 500 ("Failed to upload slide " ++ toString i ++ " to S3: " ++ e),
           store)
        | Except.error LoopFail.indexError =>
          (ProcessResult.error 500 "Internal server error", store)
        | Except.ok groups =>
          (ProcessResult.success groups (groups.map (fun g => (g.1, buildHtml g.1 g.2)))
            (cfg.bucket.getD "") (groups.map (fun g => g.2.length)).sum,
           storeErase store (req.session_id.getD ""))

/-! ## Request traces (for the session single-use invariant) -/

/-- One incoming request, with the nondeterministic inputs (the generated
uuid, the AWS environment, the S3 outcomes) made explicit. -/
inductive Request where
  | upload (fresh : String) (req : UploadReq)
  | process (cfg : AwsCfg) (oracle : S3Oracle) (req : ProcessReq)

/-- The effect of one request on `session_storage`. -/
def stepStore (store : Store) : Request → Store
  | Request.upload fresh r => (handle_upload fresh store r).2
  | Request.process cfg o r => (process_slides cfg o store r).2

/-- The store after a sequence of requests. -/
def runRequests (store : Store) : List Request → Store
  | [] => store
  | r :: rs => runRequests (stepStore store r) rs

/-- Whether a process response is the 200 success payload. -/
def ProcessResult.isSuccess : ProcessResult → Bool
  | ProcessResult.success _ _ _ _ => true
  | _ => false

/-! ## Response projections used in concrete statements -/

/-- All slide ids appearing anywhere in a success response's
`uploaded_slides`, in order. -/
def resultUploadIds : ProcessResult → List Int
  | ProcessResult.success groups _ _ _ => (groups.map (fun g => g.2.map (fun e => e.id))).flatten
  | _ => []

/-- The keys of `html_sections` in a success response, in order. -/
def htmlKeys : ProcessResult → List String
  | ProcessResult.success _ html _ _ => html.map (fun h => h.1)
  | _ => []

/-- The slide ids of the `uploaded_slides` group of one category, in order. -/
def groupIds (res : ProcessResult) (cat : String) : List Int :=
  match res with
  | ProcessResult.success groups _ _ _ =>
    ((groups.filter (fun g => g.1 == cat)).map (fun g => g.2.map (fun e => e.id))).flatten
  | _ => []

/-- The head of the list (if any) does not satisfy `p` — the state in which
a `dropWhile p` pass is a no-op. -/
def headNot (p : Char → Bool) : List Char → Prop
  | [] => True
  | c :: _ => p c = false

/-! ## Concrete fixtures used in witnesses and counterexamples -/

/-- Concrete pages used to instantiate C6: a wide page and a tall page. -/
def c6Imgs : List PILImage :=
  [{ width := 400, height := 100, png := [1] }, { width := 100, height := 400, png := [2] }]

/-- A fully configured AWS environment. -/
def demoCfg : AwsCfg :=
  { access_key := some "k", secret_key := some "sk", region := "us-east-1", bucket := some "bkt" }

/-- An S3 backend on which every `put_object` succeeds. -/
def okOracle : S3Oracle := fun _ _ => none

/-- An S3 backend on which every `put_object` raises a `ClientError`. -/
def failOracle : S3Oracle := fun _ _ => some "AccessDenied"

/-- A three-page session as produced by a successful three-page upload. -/
def c8Session : SessionData :=
  { slides := [], temp_images := [[10], [20], [30]], fund_id := "Fund", fund_name := "Name",
    safe_fund_id := "Fund", safe_fund_name := "Name" }

/-- A store holding the three-page session under id "s8". -/
def c8Store : Store := [("s8", c8Session)]

/-- Select all three slides with categories intro, body, body. -/
def c8Req : ProcessReq :=
  { session_id := some "s8",
    selected_slides := [{ id := some 1, category := some "intro" },
                        { id := some 2, category := some "body" },
                        { id := some 3, category := some "body" }] }

/-- A two-image session under id "sess" (used for the negative-id run). -/
def cexSession : SessionData :=
  { slides := [], temp_images := [[0], [1]], fund_id := "F", fund_name := "G",
    safe_fund_id := "F", safe_fund_name := "G" }

/-- A store holding the two-image session. -/
def cexStore : Store := [("sess", cexSession)]

/-- A process request selecting the out-of-range id -1. -/
def cexReq : ProcessReq :=
  { session_id := some "sess", selected_slides := [{ id := some (-1), category := some "a" }] }

/-- A well-formed process request consuming session "sess". -/
def c1Req : ProcessReq :=
  { session_id := some "sess", selected_slides := [{ id := some 1, category := some "a" }] }

/-- A valid one-page upload request used as an interleaved trace step. -/
def traceUpload : UploadReq :=
  { file := some { filename := "b.pdf", size := 3
                   pdf := Except.ok [{ width := 10, height := 10, png := [7] }] },
    fund_id := "x", fund_name := "y", content_length := 3 }

/-! ## Theorems -/

/-- The modelled thumbnail always fits in the 300x200 bounding box. -/
theorem thumbDims_le (w h : Nat) : (thumbDims w h).1 ≤ 300 ∧ (thumbDims w h).2 ≤ 200 := by
  unfold thumbDims
  split
  · next hwh => exact ⟨hwh.1, hwh.2⟩
  · split
    · next hwh h2 =>
      refine ⟨?_, le_refl 200⟩
      rcases Nat.eq_zero_or_pos h with h0 | hpos
      · subst h0; simp
      · have hd : (200 * w + h - 1) / h < 301 :=
          (Nat.div_lt_iff_lt_mul hpos).mpr (by omega)
        simp only [max_le_iff]
        omega
    · next hwh h2 =>
      refine ⟨le_refl 300, ?_⟩
      have hw : 0 < w := by omega
      have hd : (300 * h + w - 1) / w < 201 :=
        (Nat.div_lt_iff_lt_mul hw).mpr (by omega)
      simp only [max_le_iff]
      omega

/-- C6: for every valid PDF with N pages, a successful upload returns exactly
N slides whose ids are 1..N in page order (slide i corresponds to page i),
each carrying a thumbnail no larger than 300x200. -/
theorem C6_slides_per_page (imgs : List PILImage) :
    (convert_pdf_to_images (Except.ok imgs)).1.length = imgs.length ∧
    (convert_pdf_to_images (Except.ok imgs)).1.map Slide.id = List.range' 1 imgs.length ∧
    ∀ s ∈ (convert_pdf_to_images (Except.ok imgs)).1,
      s.thumbnail.width ≤ 300 ∧ s.thumbnail.height ≤ 200 := by
  refine ⟨?_, ?_, ?_⟩
  · simp [convert_pdf_to_images]
  · simp only [convert_pdf_to_images]
    rw [List.map_map]
    have h1 : (Slide.id ∘ fun p : Nat × PILImage => mkSlide p.1 p.2) =
        ((fun n => n + 1) ∘ Prod.fst) := rfl
    rw [h1, ← List.map_map, List.enum_map_fst, List.range'_eq_map_range]
    simp [Nat.add_comm]
  · intro s hs
    simp only [convert_pdf_to_images, List.mem_map] at hs
    obtain ⟨p, _, rfl⟩ := hs
    exact thumbDims_le p.2.width p.2.height

/-- Witness for C6 at a concrete two-page PDF. -/
theorem C6_slides_per_page_witness :
    (convert_pdf_to_images (Except.ok c6Imgs)).1.map Slide.id = List.range' 1 c6Imgs.length ∧
    mkSlide 0 { width := 400, height := 100, png := [1] } ∈
      (convert_pdf_to_images (Except.ok c6Imgs)).1 ∧
    (mkSlide 0 { width := 400, height := 100, png := [1] }).thumbnail.width ≤ 300 ∧
    (mkSlide 0 { width := 400, height := 100, png := [1] }).thumbnail.height ≤ 200 :=
  ⟨(C6_slides_per_page c6Imgs).2.1, by decide,
    ((C6_slides_per_page c6Imgs).2.2 _ (by decide)).1,
    ((C6_slides_per_page c6Imgs).2.2 _ (by decide)).2⟩

/-- C2: the claim (and the spec, which registers a 413 handler for exactly
this purpose) says an oversized upload is rejected with HTTP 413, but the
code answers 500: werkzeug's `RequestEntityTooLarge` for the oversized body
is raised at the first body access inside the view's `try` and swallowed by
the bare `except Exception` (line 202).  Evaluated at a 50 MiB + 1 byte
upload, the request path returns 500 "Internal server error" and no session
is created (the empty store stays empty). -/
theorem C2_oversized_gets_500_not_413 :
    handle_upload "id0" []
      { file := some { filename := "a.pdf", size := 52428801, pdf := Except.ok [] },
        fund_id := "f", fund_name := "g", content_length := 52428801 } =
      (UploadResult.error 500 "Internal server error", []) := rfl

/-- C7: the upload validation checks run in the order file presence, then
filename non-empty, then extension `.pdf` (case-insensitive), then size at
most 50 MiB; each failure returns its structured JSON error with the store
unchanged, so no session is created.  Each conjunct holds regardless of the
later checks' inputs, which exhibits the order; the separate fund-field check
(which the code runs between file presence and the filename check) is held
satisfied in the last three conjuncts. -/
theorem C7_validation_order (fresh : String) (store : Store) (req : UploadReq)
    (file : UploadedFile) :
    (req.file = none →
      upload_pdf fresh store req = (UploadResult.error 400 "No file provided", store)) ∧
    (req.file = some file → (pyStrip req.fund_id) ≠ "" → (pyStrip req.fund_name) ≠ "" →
      file.filename = "" →
      upload_pdf fresh store req = (UploadResult.error 400 "No file selected", store)) ∧
    (req.file = some file → (pyStrip req.fund_id) ≠ "" → (pyStrip req.fund_name) ≠ "" →
      file.filename ≠ "" → allowed_file file.filename = false →
      upload_pdf fresh store req =
        (UploadResult.error 400 "Invalid file type. Only PDF files are allowed.", store)) ∧
    (req.file = some file → (pyStrip req.fund_id) ≠ "" → (pyStrip req.fund_name) ≠ "" →
      file.filename ≠ "" → allowed_file file.filename = true →
      MAX_CONTENT_LENGTH < file.size →
      upload_pdf fresh store req =
        (UploadResult.error 400 "File size exceeds 50MB limit", store)) := by
  refine ⟨?_, ?_, ?_, ?_⟩
  · intro h; simp [upload_pdf, h]
  · intro h h1 h2 h3; simp [upload_pdf, h, h1, h2, h3]
  · intro h h1 h2 h3 h4; simp [upload_pdf, h, h1, h2, h3, h4]
  · intro h h1 h2 h3 h4 h5; simp [upload_pdf, h, h1, h2, h3, h4, h5]

/-- Witness for C7: a request with a `.txt` filename (fund fields valid) is
rejected as an invalid file type with the store unchanged. -/
theorem C7_validation_order_witness :
    upload_pdf "id1" []
      { file := some { filename := "a.txt", size := 5, pdf := Except.ok [] },
        fund_id := "f", fund_name := "g", content_length := 5 } =
      (UploadResult.error 400 "Invalid file type. Only PDF files are allowed.", []) :=
  (C7_validation_order "id1" []
      { file := some { filename := "a.txt", size := 5, pdf := Except.ok [] },
        fund_id := "f", fund_name := "g", content_length := 5 }
      { filename := "a.txt", size := 5, pdf := Except.ok [] }).2.2.1
    rfl (by decide) (by decide) (by decide) (by decide)

/-- C5: rasterization produces no partial output.  When the rasterizer
raises, `convert_pdf_to_images` returns the empty pair and a
validation-passing upload request is answered with the generic 500
"Failed to process PDF" error, leaving the store unchanged (no session); and
for every successful rasterization the result has exactly one slide per
page. -/
theorem C5_no_partial_output (fresh : String) (store : Store) (req : UploadReq)
    (file : UploadedFile) (u : Unit)
    (hfile : req.file = some file) (hpdf : file.pdf = Except.error u)
    (hf1 : (pyStrip req.fund_id) ≠ "") (hf2 : (pyStrip req.fund_name) ≠ "")
    (hname : file.filename ≠ "") (hext : allowed_file file.filename = true)
    (hsz : file.size ≤ MAX_CONTENT_LENGTH) :
    convert_pdf_to_images file.pdf = ([], []) ∧
    upload_pdf fresh store req = (UploadResult.error 500 "Failed to process PDF", store) ∧
    ∀ imgs : List PILImage, (convert_pdf_to_images (Except.ok imgs)).1.length = imgs.length := by
  refine ⟨?_, ?_, ?_⟩
  · rw [hpdf]; rfl
  · have hnot : ¬ MAX_CONTENT_LENGTH < file.size := by omega
    simp [upload_pdf, hfile, hf1, hf2, hname, hext, hnot, hpdf, convert_pdf_to_images]
  · intro imgs; simp [convert_pdf_to_images]

/-- Witness for C5: a well-formed request whose PDF fails to rasterize gets
the generic 500 with no session created. -/
theorem C5_no_partial_output_witness :
    convert_pdf_to_images (Except.error () : Except Unit (List PILImage)) = ([], []) ∧
    upload_pdf "id2" []
      { file := some { filename := "a.pdf", size := 5, pdf := Except.error () },
        fund_id := "f", fund_name := "g", content_length := 5 } =
      (UploadResult.error 500 "Failed to process PDF", []) :=
  ⟨(C5_no_partial_output "id2" []
      { file := some { filename := "a.pdf", size := 5, pdf := Except.error () },
        fund_id := "f", fund_name := "g", content_length := 5 }
      { filename := "a.pdf", size := 5, pdf := Except.error () } () rfl rfl
      (by decide) (by decide) (by decide) (by decide) (by decide)).1,
   (C5_no_partial_output "id2" []
      { file := some { filename := "a.pdf", size := 5, pdf := Except.error () },
        fund_id := "f", fund_name := "g", content_length := 5 }
      { filename := "a.pdf", size := 5, pdf := Except.error () } () rfl rfl
      (by decide) (by decide) (by decide) (by decide) (by decide)).2.1⟩

/-- C10: a selection whose id is absent, null or 0, or whose category is
absent, null or empty, is silently skipped by the process loop: the run over
the remaining selections is identical, so no upload is attempted for it, it
appears in no group, and it cannot fail the request. -/
theorem C10_falsy_selection_skipped (ctx : ProcCtx) (sel : Selection) (rest : List Selection)
    (acc : Groups) (log : List String)
    (h : sel.id = none ∨ sel.id = some 0 ∨ sel.category = none ∨ sel.category = some "") :
    runSelections ctx (sel :: rest) acc log = runSelections ctx rest acc log := by
  have hf : selFields sel = none := by
    obtain ⟨i0, c0⟩ := sel
    rcases h with h | h | h | h <;>
      simp only [Selection.mk.injEq] at h <;> subst h
    · cases c0 <;> rfl
    · cases c0 <;> simp [selFields]
    · cases i0 <;> rfl
    · cases i0 <;> simp [selFields]
  simp only [runSelections, hf]

/-- Witness for C10: a selection with id 0 is skipped. -/
theorem C10_falsy_selection_skipped_witness :
    runSelections (mkCtx demoCfg okOracle "sess" cexSession)
      [{ id := some 0, category := some "a" }] [] [] =
    runSelections (mkCtx demoCfg okOracle "sess" cexSession) [] [] [] :=
  C10_falsy_selection_skipped _ _ _ _ _ (Or.inr (Or.inl rfl))

/-- C3 as stated is false on the code: on a session with 2 stored images, a
selection with id -1 (outside 1..2) is not skipped — Python's negative
indexing resolves `temp_images[-2]`, the image is uploaded, and the entry
appears in the grouped results under id -1. -/
theorem C3_counterexample :
    cexSession.temp_images.length = 2 ∧
    resultUploadIds (process_slides demoCfg okOracle cexStore cexReq).1 = [-1] := by
  exact ⟨rfl, rfl⟩

/-- C3 amended: a selection whose id is greater than the number N of stored
images is silently skipped by the process loop (no upload, no group entry,
no failure); ids at most 0 are not covered by this skip — 0 is dropped by
the truthiness check and negative ids are resolved by Python negative
indexing. -/
theorem C3_overrange_skipped (ctx : ProcCtx) (sel : Selection) (rest : List Selection)
    (acc : Groups) (log : List String) (i : Int)
    (hid : sel.id = some i) (hgt : (ctx.imgs.length : Int) < i) :
    runSelections ctx (sel :: rest) acc log = runSelections ctx rest acc log := by
  obtain ⟨i0, c0⟩ := sel
  have hi : i0 = some i := hid
  subst hi
  cases c0 with
  | none => simp [runSelections, selFields]
  | some c =>
    by_cases hc : c = ""
    · simp [runSelections, selFields, hc]
    · have hi0 : (i == 0) = false := by
        simp only [beq_eq_false_iff_ne, ne_eq]
        omega
      have hcf : (c == "") = false := by simp [hc]
      have hle : (ctx.imgs.length : Int) ≤ i - 1 := by omega
      simp [runSelections, selFields, hi0, hcf, hle]

/-- Witness for C3 (amended): id 5 on a 2-image session is skipped. -/
theorem C3_overrange_skipped_witness :
    runSelections (mkCtx demoCfg okOracle "sess" cexSession)
      [{ id := some 5, category := some "x" }] [] [] =
    runSelections (mkCtx demoCfg okOracle "sess" cexSession) [] [] [] :=
  C3_overrange_skipped _ _ _ _ _ 5 rfl (by decide)

/-- C8: processing a 3-slide session selecting ids 1,2,3 with categories
intro, body, body yields `html_sections` with exactly the keys intro and
body, the body group holding slides 2 and 3 in selection order and the intro
group holding slide 1. -/
theorem C8_roundtrip :
    htmlKeys (process_slides demoCfg okOracle c8Store c8Req).1 = ["intro", "body"] ∧
    groupIds (process_slides demoCfg okOracle c8Store c8Req).1 "body" = [2, 3] ∧
    groupIds (process_slides demoCfg okOracle c8Store c8Req).1 "intro" = [1] := by
  exact ⟨rfl, rfl, rfl⟩

/-- C4: when an S3 upload raises during the process loop, the whole request
is answered with a single 500 error naming the failing slide id, no
partial-success response is produced, and `session_storage` is returned
unchanged — the session record is still present, since deletion happens only
after all uploads succeed. -/
theorem C4_storage_failure_aborts (cfg : AwsCfg) (oracle : S3Oracle) (store : Store)
    (req : ProcessReq) (sid : String) (sd : SessionData) (i : Int) (e : String)
    (hsid : req.session_id = some sid) (hs : sid ≠ "")
    (hne : req.selected_slides ≠ [])
    (hfound : storeLookup store sid = some sd)
    (hcfg : (optTruthy cfg.access_key && optTruthy cfg.secret_key &&
      optTruthy cfg.bucket) = true)
    (hrun : (runSelections (mkCtx cfg oracle sid sd) req.selected_slides [] []).1 =
      Except.error (LoopFail.s3 i e)) :
    process_slides cfg oracle store req =
      (ProcessResult.error 500 ("Failed to upload slide " ++ toString i ++ " to S3: " ++ e),
       store) := by
  unfold process_slides
  rw [hsid]
  have h1 : optTruthy (some sid) = true := by simp [optTruthy, hs]
  have h2 : req.selected_slides.isEmpty = false := by
    simp [List.isEmpty_iff, hne]
  simp [h1, h2, hfound, hcfg, hrun]

/-- Witness for C4: a failing S3 backend aborts the request with the error
naming slide 1 and leaves the session in the store. -/
theorem C4_storage_failure_aborts_witness :
    process_slides demoCfg failOracle cexStore
      { session_id := some "sess",
        selected_slides := [{ id := some 1, category := some "a" }] } =
      (ProcessResult.error 500
        ("Failed to upload slide " ++ toString (1 : Int) ++ " to S3: " ++ "AccessDenied"),
       cexStore) :=
  C4_storage_failure_aborts demoCfg failOracle cexStore
    { session_id := some "sess",
      selected_slides := [{ id := some 1, category := some "a" }] }
    "sess" cexSession 1 "AccessDenied" rfl (by decide) (by decide) rfl rfl rfl

/-- Erasing a key removes it from lookups. -/
theorem storeLookup_erase_self (store : Store) (k : String) :
    storeLookup (storeErase store k) k = none := by
  induction store with
  | nil => rfl
  | cons p rest ih =>
    obtain ⟨a, v⟩ := p
    simp only [storeErase, List.filter_cons] at ih ⊢
    by_cases h : a = k
    · simpa [h] using ih
    · simpa [h, storeLookup] using ih

/-- Erasing any key cannot make an absent key present. -/
theorem storeLookup_erase_of_none (store : Store) (s k : String)
    (h : storeLookup store k = none) : storeLookup (storeErase store s) k = none := by
  induction store with
  | nil => rfl
  | cons p rest ih =>
    obtain ⟨a, v⟩ := p
    by_cases hak : a = k
    · subst hak
      simp [storeLookup] at h
    · simp only [storeLookup] at h
      rw [if_neg (by simp [hak])] at h
      simp only [storeErase, List.filter_cons] at ih ⊢
      by_cases has : a = s
      · simpa [has] using ih h
      · simpa [has, storeLookup, hak] using ih h

/-- Replacing the value under key `f` in place does not change the lookup of
a different key. -/
theorem storeLookup_mapUpdate_of_ne (store : Store) (f k : String) (v : SessionData)
    (hfk : f ≠ k) :
    storeLookup (store.map (fun p => if p.1 == f then (f, v) else p)) k
      = storeLookup store k := by
  induction store with
  | nil => rfl
  | cons p rest ih =>
    obtain ⟨a, w⟩ := p
    simp only [List.map_cons]
    by_cases haf : a = f
    · subst haf
      rw [if_pos (by simp : ((a, w).1 == a) = true)]
      simp only [storeLookup]
      rw [if_neg (by simp [hfk] : ¬ ((a == k) = true))]
      rw [if_neg (by simp [hfk] : ¬ ((a == k) = true))]
      exact ih
    · rw [if_neg (by simp [haf] : ¬ (((a, w).1 == f) = true))]
      simp only [storeLookup]
      rw [ih]

/-- Appending a binding for a different key does not change a lookup. -/
theorem storeLookup_append_single_of_ne (store : Store) (f k : String) (v : SessionData)
    (hfk : f ≠ k) :
    storeLookup (store ++ [(f, v)]) k = storeLookup store k := by
  induction store with
  | nil => simp [storeLookup, hfk]
  | cons p rest ih =>
    obtain ⟨a, w⟩ := p
    simp [List.cons_append, storeLookup, ih]

/-- Inserting under a different key does not change a lookup. -/
theorem storeLookup_insert_of_ne (store : Store) (f k : String) (v : SessionData)
    (hfk : f ≠ k) : storeLookup (storeInsert store f v) k = storeLookup store k := by
  unfold storeInsert
  split
  · exact storeLookup_mapUpdate_of_ne store f k v hfk
  · exact storeLookup_append_single_of_ne store f k v hfk

/-- Every branch of the upload endpoint either leaves the store unchanged or
inserts under the freshly generated id. -/
theorem upload_store_shape (fresh : String) (store : Store) (req : UploadReq) :
    (handle_upload fresh store req).2 = store ∨
    ∃ v, (handle_upload fresh store req).2 = storeInsert store fresh v := by
  unfold handle_upload upload_pdf
  repeat' split
  all_goals first | exact Or.inl rfl | exact Or.inr ⟨_, rfl⟩

/-- Every branch of the process endpoint either leaves the store unchanged or
erases the requested session id. -/
theorem process_store_shape (cfg : AwsCfg) (oracle : S3Oracle) (store : Store)
    (req : ProcessReq) :
    (process_slides cfg oracle store req).2 = store ∨
    (process_slides cfg oracle store req).2 = storeErase store (req.session_id.getD "") := by
  unfold process_slides
  repeat' split
  all_goals first | exact Or.inl rfl | exact Or.inr rfl

/-- A successful process response implies the request carried a truthy
session id and the store was updated by erasing exactly that id. -/
theorem process_success_shape (cfg : AwsCfg) (oracle : S3Oracle) (store : Store)
    (req : ProcessReq)
    (hs : (process_slides cfg oracle store req).1.isSuccess = true) :
    optTruthy req.session_id = true ∧
    (process_slides cfg oracle store req).2 = storeErase store (req.session_id.getD "") := by
  by_cases h1 : (!optTruthy req.session_id || req.selected_slides.isEmpty) = true
  · unfold process_slides at hs
    simp [h1, ProcessResult.isSuccess] at hs
  · have h1b : (!optTruthy req.session_id || req.selected_slides.isEmpty) = false := by
      simpa using h1
    have h1a : optTruthy req.session_id = true := by
      simp only [Bool.or_eq_false_iff, Bool.not_eq_false'] at h1b
      exact h1b.1
    refine ⟨h1a, ?_⟩
    cases hlk : storeLookup store (req.session_id.getD "") with
    | none =>
      unfold process_slides at hs
      simp [h1b, hlk, ProcessResult.isSuccess] at hs
    | some sd =>
      by_cases h2 : (optTruthy cfg.access_key && optTruthy cfg.secret_key &&
          optTruthy cfg.bucket) = true
      · cases hr : (runSelections (mkCtx cfg oracle (req.session_id.getD "") sd)
            req.selected_slides [] []).1 with
        | error e =>
          cases e with
          | s3 i m =>
            unfold process_slides at hs
            simp [h1b, hlk, h2, hr, ProcessResult.isSuccess] at hs
          | indexError =>
            unfold process_slides at hs
            simp [h1b, hlk, h2, hr, ProcessResult.isSuccess] at hs
        | ok groups =>
          unfold process_slides
          simp [h1b, hlk, h2, hr]
      · have h2b : (optTruthy cfg.access_key && optTruthy cfg.secret_key &&
            optTruthy cfg.bucket) = false := by simpa using h2
        unfold process_slides at hs
        simp [h1b, hlk, h2b, ProcessResult.isSuccess] at hs

/-- A single request step never brings an absent session id back, as long as
an upload step does not use that very id as its fresh uuid. -/
theorem stepStore_no_revive (store : Store) (r : Request) (k : String)
    (h : storeLookup store k = none)
    (hup : ∀ f q, r = Request.upload f q → f ≠ k) :
    storeLookup (stepStore store r) k = none := by
  cases r with
  | upload f q =>
    have hf : f ≠ k := hup f q rfl
    rcases upload_store_shape f store q with h2 | ⟨v, h2⟩
    · simp only [stepStore]
      rw [h2]
      exact h
    · simp only [stepStore]
      rw [h2, storeLookup_insert_of_ne store f k v hf]
      exact h
  | process cfg o q =>
    rcases process_store_shape cfg o store q with h2 | h2 <;> simp only [stepStore] <;> rw [h2]
    · exact h
    · exact storeLookup_erase_of_none store _ k h

/-- No sequence of later requests revives an erased session id, as long as no
upload among them draws that id as its fresh uuid. -/
theorem runRequests_no_revive (reqs : List Request) : ∀ (store : Store) (k : String),
    storeLookup store k = none →
    (∀ f q, Request.upload f q ∈ reqs → f ≠ k) →
    storeLookup (runRequests store reqs) k = none := by
  induction reqs with
  | nil =>
    intro store k h _
    exact h
  | cons r rs ih =>
    intro store k h hup
    simp only [runRequests]
    refine ih _ k ?_ ?_
    · exact stepStore_no_revive store r k h
        (fun f q hr => hup f q (by rw [hr]; exact List.mem_cons_self _ _))
    · intro f q hm
      exact hup f q (List.mem_cons_of_mem _ hm)

/-- A process request for an absent (nonempty) session id with a nonempty
selection list is answered 404 with the store unchanged. -/
theorem process_not_found (cfg : AwsCfg) (oracle : S3Oracle) (store : Store)
    (sid : String) (sels : List Selection) (hs : sid ≠ "") (hne : sels ≠ [])
    (hlk : storeLookup store sid = none) :
    process_slides cfg oracle store { session_id := some sid, selected_slides := sels } =
      (ProcessResult.error 404 "Session not found or expired", store) := by
  unfold process_slides
  have h1 : optTruthy (some sid) = true := by simp [optTruthy, hs]
  have h2 : sels.isEmpty = false := by simp [List.isEmpty_iff, hne]
  simp [h1, h2, hlk]

/-- C1: a session id consumed by a successful process request is gone from
the store, and — provided no later upload draws the same uuid — any later
process request presenting that id (with a nonempty selection list) is
answered 404 "Session not found or expired", whatever requests happened in
between. -/
theorem C1_session_single_use (cfg : AwsCfg) (oracle : S3Oracle) (store : Store)
    (req : ProcessReq) (sid : String)
    (hsid : req.session_id = some sid)
    (hsucc : (process_slides cfg oracle store req).1.isSuccess = true)
    (reqs : List Request)
    (hfresh : ∀ f q, Request.upload f q ∈ reqs → f ≠ sid)
    (cfg2 : AwsCfg) (oracle2 : S3Oracle) (sels2 : List Selection) (hne2 : sels2 ≠ []) :
    process_slides cfg2 oracle2 (runRequests (process_slides cfg oracle store req).2 reqs)
      { session_id := some sid, selected_slides := sels2 } =
      (ProcessResult.error 404 "Session not found or expired",
       runRequests (process_slides cfg oracle store req).2 reqs) := by
  obtain ⟨ht, hst⟩ := process_success_shape cfg oracle store req hsucc
  rw [hsid] at ht hst
  have hsne : sid ≠ "" := by simpa [optTruthy] using ht
  have h0 : storeLookup (process_slides cfg oracle store req).2 sid = none := by
    rw [hst]
    simpa using storeLookup_erase_self store sid
  have h1 := runRequests_no_revive reqs (process_slides cfg oracle store req).2 sid h0 hfresh
  exact process_not_found cfg2 oracle2 _ sid sels2 hsne hne2 h1

/-- Witness for C1: consuming "sess", then handling an unrelated upload, then
presenting "sess" again yields 404. -/
theorem C1_session_single_use_witness :
    process_slides demoCfg okOracle
      (runRequests (process_slides demoCfg okOracle cexStore c1Req).2
        [Request.upload "other" traceUpload])
      { session_id := some "sess", selected_slides := [{ id := some 1, category := some "a" }] } =
      (ProcessResult.error 404 "Session not found or expired",
       runRequests (process_slides demoCfg okOracle cexStore c1Req).2
         [Request.upload "other" traceUpload]) :=
  C1_session_single_use demoCfg okOracle cexStore c1Req "sess" rfl rfl
    [Request.upload "other" traceUpload]
    (by
      intro f q hm
      simp only [List.mem_singleton] at hm
      injection hm with hf hq
      subst hf
      decide)
    demoCfg okOracle [{ id := some 1, category := some "a" }] (by decide)

/-- A word character is neither a hyphen nor whitespace. -/
theorem wordChar_not_dashSpace (c : Char) (h : isWordChar c = true) : isDashSpace c = false := by
  cases hd : isDashSpace c with
  | false => rfl
  | true =>
    exfalso
    have hc : c = '-' ∨ c = ' ' ∨ c = '\t' ∨ c = '\r' ∨ c = '\n' := by
      simp [isDashSpace, isSpaceChar, Char.isWhitespace] at hd
      tauto
    rcases hc with h1 | h1 | h1 | h1 | h1 <;> subst h1 <;> exact absurd h (by decide)

/-- A kept character that is neither hyphen nor whitespace is a word
character. -/
theorem word_of_keep_not_dashSpace (c : Char) (hk : keepChar c = true)
    (hd : isDashSpace c = false) : isWordChar c = true := by
  simp only [keepChar, Bool.or_eq_true] at hk
  simp only [isDashSpace, Bool.or_eq_false_iff] at hd
  rcases hk with (hw | hs) | hdash
  · exact hw
  · exact absurd hs (by simp [hd.2])
  · exact absurd hdash (by simp [hd.1])

/-- Every character produced by the run-collapsing pass is the inserted
underscore or an input character that is neither hyphen nor whitespace. -/
theorem collapseRuns_mem (l : List Char) : ∀ (b : Bool) (c : Char),
    c ∈ collapseRuns b l → c = '_' ∨ (c ∈ l ∧ isDashSpace c = false) := by
  induction l with
  | nil =>
    intro b c h
    simp [collapseRuns] at h
  | cons x xs ih =>
    intro b c h
    cases hx : isDashSpace x with
    | true =>
      cases b with
      | true =>
        simp only [collapseRuns, hx, if_true] at h
        rcases ih true c h with h1 | ⟨h2, h3⟩
        · exact Or.inl h1
        · exact Or.inr ⟨List.mem_cons_of_mem x h2, h3⟩
      | false =>
        simp only [collapseRuns, hx, if_true, if_false] at h
        rcases List.mem_cons.mp h with h1 | h1
        · exact Or.inl h1
        · rcases ih true c h1 with h2 | ⟨h3, h4⟩
          · exact Or.inl h2
          · exact Or.inr ⟨List.mem_cons_of_mem x h3, h4⟩
    | false =>
      simp only [collapseRuns, hx, Bool.false_eq_true, if_false] at h
      rcases List.mem_cons.mp h with h1 | h1
      · subst h1
        exact Or.inr ⟨List.mem_cons_self _ _, hx⟩
      · rcases ih false c h1 with h2 | ⟨h3, h4⟩
        · exact Or.inl h2
        · exact Or.inr ⟨List.mem_cons_of_mem x h3, h4⟩

/-- The run-collapsing pass is the identity on lists without hyphens or
whitespace. -/
theorem collapseRuns_fix : ∀ l : List Char,
    (∀ c ∈ l, isDashSpace c = false) → ∀ b, collapseRuns b l = l := by
  intro l
  induction l with
  | nil =>
    intro _ b
    rfl
  | cons x xs ih =>
    intro hl b
    have hx : isDashSpace x = false := hl x (List.mem_cons_self x xs)
    have hxs : ∀ c ∈ xs, isDashSpace c = false := fun c hc => hl c (List.mem_cons_of_mem x hc)
    simp [collapseRuns, hx, ih hxs false]

/-- After a `dropWhile p` pass the head no longer satisfies `p`. -/
theorem headNot_dropWhile (p : Char → Bool) (l : List Char) : headNot p (l.dropWhile p) := by
  induction l with
  | nil => trivial
  | cons x xs ih =>
    rw [List.dropWhile_cons]
    split
    · exact ih
    · next h =>
      show p x = false
      rw [← Bool.not_eq_true]
      exact h

/-- `dropWhile p` is a no-op when the head does not satisfy `p`. -/
theorem dropWhile_of_headNot (p : Char → Bool) (l : List Char) (h : headNot p l) :
    l.dropWhile p = l := by
  cases l with
  | nil => rfl
  | cons x xs =>
    have hx : p x = false := h
    rw [List.dropWhile_cons, if_neg (by simp [hx])]

/-- Members survive a `dropWhile`. -/
theorem dropWhile_mem (p : Char → Bool) : ∀ (l : List Char) (c : Char),
    c ∈ l.dropWhile p → c ∈ l := by
  intro l
  induction l with
  | nil =>
    intro c h
    exact h
  | cons x xs ih =>
    intro c h
    rw [List.dropWhile_cons] at h
    split at h
    · exact List.mem_cons_of_mem x (ih c h)
    · exact h

/-- Members survive a trailing strip. -/
theorem dropTrail_mem (p : Char → Bool) : ∀ (l : List Char) (c : Char),
    c ∈ dropTrail p l → c ∈ l := by
  intro l
  induction l with
  | nil =>
    intro c h
    simp [dropTrail] at h
  | cons x xs ih =>
    intro c h
    rw [dropTrail] at h
    cases hr : dropTrail p xs with
    | nil =>
      rw [hr] at h
      by_cases hx : p x = true
      · simp [hx] at h
      · simp [hx] at h
        subst h
        exact List.mem_cons_self _ _
    | cons y ys =>
      rw [hr] at h
      rcases List.mem_cons.mp h with h1 | h1
      · subst h1
        exact List.mem_cons_self _ _
      · exact List.mem_cons_of_mem x (ih c (hr ▸ h1))

/-- Stripping a trailing run keeps the head property. -/
theorem dropTrail_headNot (p : Char → Bool) (l : List Char) (h : headNot p l) :
    headNot p (dropTrail p l) := by
  cases l with
  | nil => trivial
  | cons x xs =>
    have hx : p x = false := h
    rw [dropTrail]
    cases hr : dropTrail p xs with
    | nil =>
      show headNot p (if p x = true then [] else [x])
      rw [if_neg (by simp [hx])]
      exact hx
    | cons y ys =>
      exact hx

/-- Stripping a trailing run twice is the same as once. -/
theorem dropTrail_idem (p : Char → Bool) : ∀ l : List Char,
    dropTrail p (dropTrail p l) = dropTrail p l := by
  intro l
  induction l with
  | nil => rfl
  | cons x xs ih =>
    have key : dropTrail p (x :: xs) =
        (match dropTrail p xs with
         | [] => if p x = true then [] else [x]
         | r => x :: r) := rfl
    cases hr : dropTrail p xs with
    | nil =>
      rw [key, hr]
      by_cases hx : p x = true
      · simp [hx, dropTrail]
      · simp only [hx, Bool.false_eq_true, if_false]
        simp [dropTrail, hx]
    | cons y ys =>
      rw [key, hr]
      have h2 : dropTrail p (y :: ys) = y :: ys := by
        rw [← hr, ih]
      show (match dropTrail p (y :: ys) with
            | [] => if p x = true then [] else [x]
            | r => x :: r) = x :: y :: ys
      rw [h2]

/-- Members survive a full strip. -/
theorem pyStripWhen_mem (p : Char → Bool) (l : List Char) (c : Char)
    (h : c ∈ pyStripWhen p l) : c ∈ l :=
  dropWhile_mem p l c (dropTrail_mem p (l.dropWhile p) c h)

/-- Python's strip is idempotent. -/
theorem pyStripWhen_idem (p : Char → Bool) (l : List Char) :
    pyStripWhen p (pyStripWhen p l) = pyStripWhen p l := by
  unfold pyStripWhen
  have h1 : headNot p (l.dropWhile p) := headNot_dropWhile p l
  have h2 : headNot p (dropTrail p (l.dropWhile p)) := dropTrail_headNot p _ h1
  rw [dropWhile_of_headNot p _ h2, dropTrail_idem]

/-- Every character of a sanitized string is a word character. -/
theorem sanitize_data_word (s : String) :
    ∀ c ∈ (sanitize_filename s).data, isWordChar c = true := by
  intro c hc
  have hc2 : c ∈ stripU (collapseRuns false (s.data.filter keepChar)) := hc
  have hc3 : c ∈ collapseRuns false (s.data.filter keepChar) :=
    pyStripWhen_mem isU _ c hc2
  rcases collapseRuns_mem _ false c hc3 with h1 | ⟨h2, h3⟩
  · subst h1
    decide
  · exact word_of_keep_not_dashSpace c (List.mem_filter.mp h2).2 h3

/-- The keep-filter is the identity on all-word strings. -/
theorem filter_keep_of_word (l : List Char) (h : ∀ c ∈ l, isWordChar c = true) :
    l.filter keepChar = l :=
  List.filter_eq_self.mpr (fun c hc => by simp [keepChar, h c hc])

/-- C9: `sanitize_filename` is idempotent — sanitizing an already sanitized
string returns it unchanged. -/
theorem C9_sanitize_idempotent (s : String) :
    sanitize_filename (sanitize_filename s) = sanitize_filename s := by
  have hw := sanitize_data_word s
  show String.mk (stripU (collapseRuns false ((sanitize_filename s).data.filter keepChar)))
      = sanitize_filename s
  rw [filter_keep_of_word _ hw]
  rw [collapseRuns_fix _ (fun c hc => wordChar_not_dashSpace c (hw c hc)) false]
  show String.mk (pyStripWhen isU (pyStripWhen isU
      (collapseRuns false (s.data.filter keepChar)))) = sanitize_filename s
  rw [pyStripWhen_idem]
  rfl
